import Mathlib

/-
Verification of the sample-metadata retrieval and normalization pipeline
implemented in microsetta_admin/metadata_util.py.

The Python module is shallowly embedded below: dictionaries become
association lists, pandas Series/DataFrame objects become explicit
record types where a missing key models a null (NaN) cell, and code
that can raise (assertions, key lookups, attribute errors) returns
an Option.  Remote API calls are modelled as explicit oracle function
arguments (barcode to status/payload, template to status/payload),
mirroring the request/response contract of the private API.
-/

namespace Microsetta

/-- Characters kept by the naming transform: the regex class [0-9a-zA-Z_]. -/
def isWordChar (c : Char) : Bool :=
  c.isAlphanum || c == '_'

/-- Embedding of metadata_util._build_col_name: replace spaces with
underscores, then hyphens with underscores, then delete every character
outside [0-9a-zA-Z_] (the re.sub), and prepend the field shortname and
an underscore.  Strings are handled at the character-list level. -/
def build_col_name (col_name multiselect_answer : String) : String :=
  let a1 := multiselect_answer.toList.map (fun c => if c = ' ' then '_' else c)
  let a2 := a1.map (fun c => if c = '-' then '_' else c)
  let reduced := String.mk (a2.filter isWordChar)
  col_name ++ "_" ++ reduced

/-- The naming transform exactly as the specification words it: append to the
shortname an underscore and the choice value with every space and hyphen
replaced by an underscore and every remaining character outside
[0-9a-zA-Z_] stripped. -/
def buildColNameSpec (col_name multiselect_answer : String) : String :=
  col_name ++ "_" ++
    String.mk ((multiselect_answer.toList.map
      (fun c => if c = ' ' ∨ c = '-' then '_' else c)).filter isWordChar)

/-- Embedding of metadata_util.TEMPLATES_TO_IGNORE. -/
def TEMPLATES_TO_IGNORE : List Nat := [10001]

/-- Embedding of metadata_util.EBI_REMOVE. -/
def EBI_REMOVE : List String :=
  ["ABOUT_YOURSELF_TEXT", "ANTIBIOTIC_CONDITION",
   "ANTIBIOTIC_MED",
   "BIRTH_MONTH", "CAT_CONTACT", "CAT_LOCATION",
   "CONDITIONS_MEDICATION", "DIET_RESTRICTIONS_LIST",
   "DOG_CONTACT",
   "DOG_LOCATION", "GENDER", "MEDICATION_LIST",
   "OTHER_CONDITIONS_LIST", "PREGNANT_DUE_DATE",
   "RACE_OTHER",
   "RELATIONSHIPS_WITH_OTHERS_IN_STUDY",
   "SPECIAL_RESTRICTIONS",
   "SUPPLEMENTS", "TRAVEL_LOCATIONS_LIST", "ZIP_CODE",
   "WILLING_TO_BE_CONTACTED", "pets_other_freetext"]

/-- Keep the first occurrence of every element, dropping later repeats;
this models iteration over a Python set built from a list, keyed to
first-encounter order. -/
def firstDedupAux [DecidableEq α] (seen : List α) : List α → List α
  | [] => []
  | a :: rest =>
    if a ∈ seen then firstDedupAux seen rest
    else a :: firstDedupAux (a :: seen) rest

/-- First-occurrence deduplication of a list. -/
def firstDedup [DecidableEq α] (l : List α) : List α :=
  firstDedupAux [] l

/-- Multiplicity of a barcode in the requested batch
(collections.Counter). -/
def countOcc (b : String) : List String → Nat
  | [] => 0
  | x :: l => (if x = b then 1 else 0) + countOcc b l

/-- A raw survey answer: either free text or a list of selected choices. -/
inductive Answer where
  | text (s : String)
  | multi (selections : List String)
  deriving DecidableEq

/-- One survey submission: a template id and the response mapping
question-id to (shortname, raw answer). -/
structure Survey where
  template : Nat
  response : List (Nat × String × Answer)
  deriving DecidableEq

/-- Raw sample metadata as returned by
GET /api/admin/metadata/samples/barcode/surveys/. -/
structure SampleMeta where
  sample_barcode : String
  host_subject_id : String
  source_type : String
  site : String
  source_description : String
  datetime_collected : String
  account_id : String
  source_id : String
  survey_answers : List Survey
  deriving DecidableEq

/-- One question field of a survey template. -/
structure TField where
  id : Nat
  shortname : String
  multi : Bool
  values : List String
  deriving DecidableEq

/-- A group of fields within a survey template. -/
structure TGroup where
  fields : List TField
  deriving DecidableEq

/-- A survey template structure (the survey_template_text payload). -/
structure Template where
  groups : List TGroup
  deriving DecidableEq

/-- The error record built by _fetch_survey_template on a non-200 status:
the ids dict (account, source, template) plus the error string. -/
structure TemplateErr where
  account_id : String
  source_id : String
  template_id : Nat
  error : String
  deriving DecidableEq

/-- A flattened per-sample record (a pd.Series): the barcode name plus
ordered (index, value) entries.  A column with no entry models a null. -/
structure Series where
  name : String
  entries : List (String × String)
  deriving DecidableEq

/-- The assembled table (a pd.DataFrame): the column set in order of first
appearance plus the rows. -/
structure DataFrame where
  columns : List String
  rows : List Series
  deriving DecidableEq

/-- One entry of the error report produced by retrieve_metadata. -/
inductive ErrorEntry where
  | dups (barcodes : List String) (error : String)
  | sampleFetch (barcode : String) (error : String)
  | templateFetch (errors : List (Nat × TemplateErr))
  | noMetadata (error : String)
  deriving DecidableEq

/-- The multiselect column map: keyed by (template id, question id),
valued by an association of choice value to canonical column name. -/
abbrev MSMap := List ((Nat × Nat) × List (String × String))

/-- Modelled from the spec: the fixed site to invariant-field table for
human samples (HUMAN_SITE_INVARIANTS lives in metadata_constants.py, which
is not under src/); the spec treats its content as configuration data, so
the pipeline definitions below take the table as a parameter. -/
abbrev SiteInvariants := List (String × List (String × String))

/-- First-match association-list lookup, the model of a Python dict
access: none models a KeyError. -/
def alist_get [DecidableEq κ] (es : List (κ × ν)) (k : κ) : Option ν :=
  (es.find? (fun e => decide (e.1 = k))).map (fun e => e.2)

/-- Association-list lookup in the multiselect column map. -/
def lookupMS (m : MSMap) (k : Nat × Nat) : Option (List (String × String)) :=
  alist_get m k

/-- Lookup of a selected choice inside one field's choice-to-column map;
a missing key models the KeyError of specific_shortnames[selection]. -/
def lookupChoice (cm : List (String × String)) (sel : String) : Option String :=
  alist_get cm sel

/-- Lookup of a site in the human site-invariant table; a missing key
models the KeyError of HUMAN_SITE_INVARIANTS[sample_type]. -/
def lookupInv (hsi : SiteInvariants) (site : String) :
    Option (List (String × String)) :=
  alist_get hsi site

/-- The cell of a row at a column: none models a null (NaN) cell. -/
def rawCell (r : Series) (c : String) : Option String :=
  alist_get r.entries c

/-- Characters removed by answer.strip of brackets and double quotes. -/
def stripSet : List Char := ['[', ']', '\"']

/-- Embedding of the free-text cleanup answer.strip applied to brackets and
quotes: drop those characters from both ends of the string. -/
def stripFreeText (s : String) : String :=
  let l := s.toList.dropWhile (fun c => stripSet.contains c)
  String.mk ((l.reverse.dropWhile (fun c => stripSet.contains c)).reverse)

/-- Embedding of metadata_util._construct_multiselect_map: for every
multi-select field of every fetched template, map each enumerated choice
to its canonical column name. -/
def construct_multiselect_map (survey_templates : List (Nat × Template)) :
    MSMap :=
  (survey_templates.map (fun p =>
    (p.2.groups.map (fun g =>
      (g.fields.filter (fun f => f.multi)).map (fun f =>
        ((p.1, f.id),
         f.values.map (fun choice =>
           (choice, build_col_name f.shortname choice)))))).flatten)).flatten

/-- Every canonical column name appearing in the multiselect map
(the set all_multiselect_columns of _to_pandas_dataframe). -/
def msColumns (m : MSMap) : List String :=
  (m.map (fun p => p.2.map (fun q => q.2))).flatten

/-- Traverse a list with a fallible function, failing if any element
fails; models a Python loop in which an exception aborts the call. -/
def optionMapList (f : α → Option β) : List α → Option (List β)
  | [] => some []
  | a :: l =>
    match f a with
    | none => none
    | some b => (optionMapList f l).map (fun bs => b :: bs)

/-- Processing of one (question, (shortname, answer)) pair of a submission
in _to_pandas_series: a mapped multiselect question must carry a list
answer (the assert) whose selections all resolve in the choice map (the
specific_shortnames[selection] lookup), emitting (column, true) pairs;
any other question goes down the free-text path, which calls strip on the
answer and therefore fails on a list. -/
def process_response_item (m : MSMap) (template : Nat)
    (item : Nat × String × Answer) : Option (List (String × String)) :=
  match lookupMS m (template, item.1) with
  | some specific_shortnames =>
    match item.2.2 with
    | Answer.multi selections =>
      optionMapList
        (fun sel => (lookupChoice specific_shortnames sel).map
          (fun col => (col, "true"))) selections
    | Answer.text _ => none
  | none =>
    match item.2.2 with
    | Answer.text a => some [(item.2.1, stripFreeText a)]
    | Answer.multi _ => none

/-- Processing of a whole submission's response mapping, in order. -/
def processResponse (m : MSMap) (template : Nat)
    (resp : List (Nat × String × Answer)) :
    Option (List (String × String)) :=
  (optionMapList (process_response_item m template) resp).map List.flatten

/-- The survey loop of _to_pandas_series: submissions are processed in
order and a template already in the collected set is skipped. -/
def processSurveys (m : MSMap) : List Nat → List Survey →
    Option (List (String × String))
  | _, [] => some []
  | seen, s :: rest =>
    if s.template ∈ seen then processSurveys m seen rest
    else
      match processResponse m s.template s.response with
      | none => none
      | some entries =>
        (processSurveys m (s.template :: seen) rest).map
          (fun more => entries ++ more)

/-- Drop every later submission of a template already seen, keeping the
first-encountered submission of each template. -/
def dedupSurveysAux (seen : List Nat) : List Survey → List Survey
  | [] => []
  | s :: rest =>
    if s.template ∈ seen then dedupSurveysAux seen rest
    else s :: dedupSurveysAux (s.template :: seen) rest

/-- Embedding of metadata_util._to_pandas_series: emit HOST_SUBJECT_ID and
COLLECTION_TIMESTAMP first, resolve the record-type invariants (a human
sample looks its site up in the invariant table, which can fail), process
every submission with first-seen-wins template dedup, and append the
invariant fields last.  none models the Python call raising. -/
def to_pandas_series (hsi : SiteInvariants) (m : MSMap) (md : SampleMeta) :
    Option Series :=
  match
    (if md.source_type = "human" then lookupInv hsi md.site
     else some []) with
  | none => none
  | some sample_invariants =>
    match processSurveys m [] md.survey_answers with
    | none => none
    | some surveyEntries =>
      some ⟨md.sample_barcode,
            [("HOST_SUBJECT_ID", md.host_subject_id),
             ("COLLECTION_TIMESTAMP", md.datetime_collected)]
            ++ surveyEntries ++ sample_invariants⟩

/-- Column set of a freshly assembled frame: the union of the rows' entry
keys in order of first appearance (pd.DataFrame on a list of Series). -/
def columnsOf (rows : List Series) : List String :=
  firstDedup ((rows.map (fun r => r.entries.map (fun e => e.1))).flatten)

/-- Give a row the value v at every listed column whose cell is null. -/
def seriesWithDefaults (r : Series) (cols : List String) (v : String) :
    Series :=
  ⟨r.name, r.entries ++
    (cols.filter (fun c => (rawCell r c).isNone)).map (fun c => (c, v))⟩

/-- First fill pass of _to_pandas_dataframe: for every multiselect column
present in the frame, remap null cells to the string false. -/
def fillMsPresent (ms : List String) (df : DataFrame) : DataFrame :=
  ⟨df.columns,
   df.rows.map (fun r =>
     seriesWithDefaults r
       ((firstDedup ms).filter (fun c => c ∈ df.columns)) "false")⟩

/-- Second fill pass: add every multiselect column not reported at all to
the frame, valued false in every row. -/
def fillMsAbsent (ms : List String) (df : DataFrame) : DataFrame :=
  let newCols := (firstDedup ms).filter (fun c => ¬ c ∈ df.columns)
  ⟨df.columns ++ newCols,
   df.rows.map (fun r =>
     ⟨r.name, r.entries ++ newCols.map (fun c => (c, "false"))⟩)⟩

/-- Third pass, df.fillna: every remaining null cell of any column becomes
the missing sentinel. -/
def fillMissing (df : DataFrame) : DataFrame :=
  ⟨df.columns,
   df.rows.map (fun r =>
     seriesWithDefaults r df.columns "Missing: not provided")⟩

/-- Fourth pass, df.replace of the empty string: every empty-string cell
becomes the missing sentinel. -/
def replaceEmpty (df : DataFrame) : DataFrame :=
  ⟨df.columns,
   df.rows.map (fun r =>
     ⟨r.name, r.entries.map (fun e =>
       (e.1, if e.2 = "" then "Missing: not provided" else e.2))⟩)⟩

/-- The four fill passes of _to_pandas_dataframe in source order. -/
def assembleFills (ms : List String) (df : DataFrame) : DataFrame :=
  replaceEmpty (fillMissing (fillMsAbsent ms (fillMsPresent ms df)))

/-- Embedding of metadata_util._to_pandas_dataframe: build the multiselect
map, flatten every sample (a flattener exception aborts the call), then
run the fill passes. -/
def to_pandas_dataframe (hsi : SiteInvariants) (metadatas : List SampleMeta)
    (survey_templates : List (Nat × Template)) : Option DataFrame :=
  let m := construct_multiselect_map survey_templates
  match optionMapList (to_pandas_series hsi m) metadatas with
  | none => none
  | some rows =>
    some (assembleFills (msColumns m) ⟨columnsOf rows, rows⟩)

/-- ASCII lower-casing of one character; the names this pipeline handles
are ASCII, for which this is str.lower. -/
def lowerChar (c : Char) : Char :=
  if 'A' ≤ c ∧ c ≤ 'Z' then Char.ofNat (c.toNat + 32) else c

/-- ASCII lower-casing of a string, character by character. -/
def lowerStr (s : String) : String :=
  String.mk (s.toList.map lowerChar)

/-- Whether the string starts with the private-field marker pm_. -/
def startsWithPm (s : String) : Bool :=
  match s.toList with
  | 'p' :: 'm' :: '_' :: _ => true
  | _ => false

/-- The redaction predicate: the column's lower-cased name starts with the
private prefix pm_ or matches the EBI denylist case-insensitively. -/
def privateCol (c : String) : Bool :=
  startsWithPm (lowerStr c) ||
    decide (lowerStr c ∈ EBI_REMOVE.map lowerStr)

/-- The remove set of drop_private_columns: the lower-cased pm_ columns of
the frame plus the lower-cased EBI denylist. -/
def removeList (df : DataFrame) : List String :=
  (df.columns.filter (fun c => startsWithPm (lowerStr c))).map lowerStr
    ++ EBI_REMOVE.map lowerStr

/-- The to_drop list of drop_private_columns: the frame's columns whose
lower-cased name is in the remove set. -/
def toDropList (df : DataFrame) : List String :=
  df.columns.filter (fun c => decide (lowerStr c ∈ removeList df))

/-- Embedding of metadata_util.drop_private_columns: drop the to_drop
columns from the frame. -/
def drop_private_columns (df : DataFrame) : DataFrame :=
  ⟨df.columns.filter (fun c => decide (¬ c ∈ toDropList df)),
   df.rows.map (fun r =>
     ⟨r.name, r.entries.filter (fun e => decide (¬ e.1 ∈ toDropList df))⟩)⟩

/-- Embedding of metadata_util._find_duplicates: the barcodes of
multiplicity above one, and an error entry when any exist. -/
def findDuplicates (barcodes : List String) :
    List String × Option ErrorEntry :=
  let dups := (firstDedup barcodes).filter
    (fun b => decide (1 < countOcc b barcodes))
  if 0 < dups.length then
    (dups, some (ErrorEntry.dups dups "Duplicated barcodes in input"))
  else
    (dups, none)

/-- The identifier set the fetch loop of retrieve_metadata iterates over:
set of the input barcodes, in first-encounter order. -/
def uniqueBarcodes (barcodes : List String) : List String :=
  firstDedup barcodes

/-- The per-barcode fetch loop of retrieve_metadata: a non-200 status
yields an error entry and skips the barcode, a 200 keeps the payload. -/
def fetchLoop (f : String → Nat × SampleMeta) :
    List String → List SampleMeta × List ErrorEntry
  | [] => ([], [])
  | b :: rest =>
    let r := fetchLoop f rest
    if ¬ (f b).1 = 200 then
      (r.1, ErrorEntry.sampleFetch b (toString (f b).1 ++ " from api") :: r.2)
    else
      ((f b).2 :: r.1, r.2)

/-- Embedding of metadata_util._fetch_survey_template over a template
oracle: a non-200 status yields the ids-and-error record. -/
def fetch_survey_template (ft : Nat → String → String → Nat × Template)
    (template_id : Nat) (account_id source_id : String) :
    Template × Option TemplateErr :=
  ((ft template_id account_id source_id).2,
   if ¬ (ft template_id account_id source_id).1 = 200 then
     some ⟨account_id, source_id, template_id,
           toString (ft template_id account_id source_id).1 ++ " from api"⟩
   else none)

/-- The templates one sample references, excluding the ignored set, in
first-encounter order (the observed_templates set comprehension). -/
def observedTemplates (md : SampleMeta) : List Nat :=
  firstDedup ((md.survey_answers.map Survey.template).filter
    (fun t => decide (¬ t ∈ TEMPLATES_TO_IGNORE)))

/-- Record one sample's observed templates into the accumulated
template-to-credentials map, first writer wins. -/
def addTemplates (acc : List (Nat × String × String)) (md : SampleMeta) :
    List (Nat × String × String) :=
  (observedTemplates md).foldl
    (fun acc2 t =>
      if (acc2.find? (fun p => decide (p.1 = t))).isSome then acc2
      else acc2 ++ [(t, md.account_id, md.source_id)]) acc

/-- The template-to-credentials map accumulated over every fetched sample
(the templates dict of _fetch_observed_survey_templates). -/
def collectTemplates (mds : List SampleMeta) : List (Nat × String × String) :=
  mds.foldl addTemplates []

/-- The per-template fetch loop: failures go to the errors map keyed by
template id, successes to the surveys map. -/
def fetchTemplatesLoop (ft : Nat → String → String → Nat × Template) :
    List (Nat × String × String) →
    List (Nat × Template) × List (Nat × TemplateErr)
  | [] => ([], [])
  | tr :: rest =>
    let r := fetchTemplatesLoop ft rest
    match (fetch_survey_template ft tr.1 tr.2.1 tr.2.2).2 with
    | some e => (r.1, (tr.1, e) :: r.2)
    | none =>
      ((tr.1, (fetch_survey_template ft tr.1 tr.2.1 tr.2.2).1) :: r.1, r.2)

/-- Embedding of metadata_util._fetch_observed_survey_templates. -/
def fetchObservedSurveyTemplates (ft : Nat → String → String → Nat × Template)
    (mds : List SampleMeta) :
    List (Nat × Template) × List (Nat × TemplateErr) :=
  fetchTemplatesLoop ft (collectTemplates mds)

/-- Embedding of metadata_util.retrieve_metadata over the two API oracles:
duplicate detection, the per-barcode fetch loop over the de-duplicated
set, the empty-result check, the template fetch, and table assembly.
The template-error branch keeps the empty frame; none models the table
construction raising. -/
def retrieve_metadata (f : String → Nat × SampleMeta)
    (ft : Nat → String → String → Nat × Template)
    (hsi : SiteInvariants) (sample_barcodes : List String) :
    Option (DataFrame × List ErrorEntry) :=
  let fetched := (fetchLoop f (uniqueBarcodes sample_barcodes)).1
  let report1 := (findDuplicates sample_barcodes).2.toList ++
    (fetchLoop f (uniqueBarcodes sample_barcodes)).2
  if fetched = [] then
    some (⟨[], []⟩,
      report1 ++ [ErrorEntry.noMetadata "No metadata was obtained"])
  else
    let stErrs := (fetchObservedSurveyTemplates ft fetched).2
    if stErrs = [] then
      (to_pandas_dataframe hsi fetched
        (fetchObservedSurveyTemplates ft fetched).1).map
        (fun df => (df, report1))
    else
      some (⟨[], []⟩, report1 ++ [ErrorEntry.templateFetch stErrs])

/-- The exact success condition of process_response_item: a mapped
question needs a list answer whose selections all resolve in the choice
map, an unmapped question needs a free-text answer. -/
def answer_ok (m : MSMap) (template : Nat)
    (item : Nat × String × Answer) : Bool :=
  match lookupMS m (template, item.1) with
  | some cm =>
    match item.2.2 with
    | Answer.multi selections =>
      selections.all (fun sel => (lookupChoice cm sel).isSome)
    | Answer.text _ => false
  | none =>
    match item.2.2 with
    | Answer.text _ => true
    | Answer.multi _ => false

/-- The success condition of the survey loop: every answer of every
first-encountered submission of each template satisfies answer_ok. -/
def surveys_ok (m : MSMap) : List Nat → List Survey → Bool
  | _, [] => true
  | seen, s :: rest =>
    if s.template ∈ seen then surveys_ok m seen rest
    else
      s.response.all (answer_ok m s.template) &&
        surveys_ok m (s.template :: seen) rest

/-- The success condition of the whole flattener: the human site lookup
succeeds and every processed submission's answers are well-formed. -/
def flatten_ok (hsi : SiteInvariants) (m : MSMap) (md : SampleMeta) : Bool :=
  (decide (¬ md.source_type = "human") || (lookupInv hsi md.site).isSome) &&
    surveys_ok m [] md.survey_answers

/-- Claim C10's stated per-answer condition: it constrains only questions
whose (template, question) pair is in the multiselect map, saying nothing
about unmapped questions. -/
def c10AnswerOk (m : MSMap) (template : Nat)
    (item : Nat × String × Answer) : Bool :=
  match lookupMS m (template, item.1) with
  | some cm =>
    match item.2.2 with
    | Answer.multi selections =>
      selections.all (fun sel => (lookupChoice cm sel).isSome)
    | Answer.text _ => false
  | none => true

/-- Claim C10's stated precondition over a whole sample: every survey
answer of every submission satisfies c10AnswerOk, and a human sample's
site is a key of the invariant table. -/
def c10Precond (hsi : SiteInvariants) (m : MSMap) (md : SampleMeta) : Bool :=
  (md.survey_answers.all (fun s => s.response.all (c10AnswerOk m s.template)))
    && (decide (¬ md.source_type = "human") || (lookupInv hsi md.site).isSome)

/-- Modelled from the spec: a representative fragment of the human
site-invariant configuration table, used for the concrete scenarios. -/
def hsiSample : SiteInvariants :=
  [("Stool", [("BODY_HABITAT", "UBERON:feces"), ("BODY_SITE", "UBERON:feces")])]

/-- A template with one multiselect blood-type field whose distinct
choices A+ and A both reduce to the canonical name blood_A. -/
def bloodTemplate : Template :=
  ⟨[⟨[⟨7, "blood", true, ["A+", "A"]⟩]⟩]⟩

/-- A sample whose only submission references the ignored template 10001,
with one free-text answer. -/
def mdIgnored : SampleMeta :=
  ⟨"BC1", "H1", "animal", "Fur", "", "2020-01-01", "a", "s",
   [⟨10001, [(5, ("PETS", Answer.text "[\"dog\"]"))]⟩]⟩

/-- A sample carrying a list answer for a question that is not in the
multiselect map. -/
def mdMultiUnmapped : SampleMeta :=
  ⟨"BC2", "H2", "animal", "Fur", "", "2020-01-02", "a", "s",
   [⟨1, [(5, ("PETS", Answer.multi ["dog"]))]⟩]⟩

/-- A sample whose only submission references template 1 with one
free-text answer; used for the template-fetch-failure scenario. -/
def mdTpl1 : SampleMeta :=
  ⟨"BC1", "H1", "animal", "Fur", "", "2020-01-01", "a", "s",
   [⟨1, [(5, ("Q", Answer.text "x"))]⟩]⟩

/-- A sample oracle that always succeeds with mdTpl1. -/
def fOk : String → Nat × SampleMeta := fun _ => (200, mdTpl1)

/-- A sample oracle for which every fetch fails with a 404. -/
def fFail : String → Nat × SampleMeta := fun _ => (404, mdTpl1)

/-- A sample oracle that succeeds for BC1 and fails for everything else. -/
def fMixed : String → Nat × SampleMeta :=
  fun b => if b = "BC1" then (200, mdTpl1) else (404, mdTpl1)

/-- A template oracle for which every fetch fails with a 500. -/
def ftFail : Nat → String → String → Nat × Template :=
  fun _ _ _ => (500, ⟨[]⟩)

/-- A small assembled frame holding a private and a public column. -/
def dfEx8 : DataFrame :=
  ⟨["ZIP_CODE", "AGE"], [⟨"s1", [("ZIP_CODE", "92093"), ("AGE", "30")]⟩]⟩

/-- A one-row frame with an empty-string free-text cell, used to exercise
the fill passes. -/
def dfW : DataFrame :=
  ⟨["Q1"], [⟨"s", [("Q1", "")]⟩]⟩

theorem mem_firstDedupAux [DecidableEq α] (l : List α) :
    ∀ (seen : List α) (b : α),
      b ∈ firstDedupAux seen l ↔ (b ∈ l ∧ ¬ b ∈ seen) := by
  induction l with
  | nil => intro seen b; simp [firstDedupAux]
  | cons a rest ih =>
    intro seen b
    rw [firstDedupAux]
    by_cases h : a ∈ seen
    · rw [if_pos h, ih]
      constructor
      · rintro ⟨hb, hs⟩
        exact ⟨List.mem_cons_of_mem _ hb, hs⟩
      · rintro ⟨hb, hs⟩
        rcases List.mem_cons.mp hb with he | hb'
        · exact absurd (he ▸ h) hs
        · exact ⟨hb', hs⟩
    · rw [if_neg h]
      by_cases hba : b = a
      · subst hba
        simp [h]
      · simp only [List.mem_cons, hba, false_or, ih (a :: seen) b]

theorem mem_firstDedup [DecidableEq α] (l : List α) (b : α) :
    b ∈ firstDedup l ↔ b ∈ l := by
  unfold firstDedup
  rw [mem_firstDedupAux]
  simp

theorem countOcc_pos (b : String) (l : List String) :
    0 < countOcc b l ↔ b ∈ l := by
  induction l with
  | nil => simp [countOcc]
  | cons x rest ih =>
    rw [countOcc]
    by_cases h : x = b
    · subst h; simp
    · have : ¬ b = x := fun hb => h hb.symm
      simp [h, this, ih]

theorem alist_get_append [DecidableEq κ] (es fs : List (κ × ν)) (k : κ) :
    alist_get (es ++ fs) k =
      match alist_get es k with
      | some w => some w
      | none => alist_get fs k := by
  induction es with
  | nil => simp [alist_get]
  | cons e rest ih =>
    by_cases h : e.1 = k
    · simp [alist_get, List.find?_cons, h]
    · unfold alist_get at ih ⊢
      rw [List.cons_append, List.find?_cons_of_neg, List.find?_cons_of_neg]
      · exact ih
      · simpa using h
      · simpa using h

theorem alist_get_mapConst [DecidableEq κ] (ks : List κ) (v : ν) (k : κ) :
    alist_get (ks.map (fun x => (x, v))) k =
      if k ∈ ks then some v else none := by
  induction ks with
  | nil => simp [alist_get]
  | cons a rest ih =>
    by_cases h : a = k
    · subst h
      simp [alist_get, List.find?_cons]
    · have hk : ¬ k = a := fun hk => h hk.symm
      unfold alist_get at ih ⊢
      rw [List.map_cons, List.find?_cons_of_neg]
      · rw [ih]
        simp [List.mem_cons, hk]
      · simpa using h

theorem alist_get_mapValues [DecidableEq κ] (g : ν → ν') (es : List (κ × ν))
    (k : κ) :
    alist_get (es.map (fun e => (e.1, g e.2))) k = (alist_get es k).map g := by
  induction es with
  | nil => simp [alist_get]
  | cons e rest ih =>
    by_cases h : e.1 = k
    · simp [alist_get, List.find?_cons, h]
    · unfold alist_get at ih ⊢
      rw [List.map_cons, List.find?_cons_of_neg, List.find?_cons_of_neg]
      · exact ih
      · simpa using h
      · simpa using h

theorem alist_get_filter_keep [DecidableEq κ] (q : κ × ν → Bool)
    (es : List (κ × ν)) (k : κ) (h : ∀ e : κ × ν, e.1 = k → q e = true) :
    alist_get (es.filter q) k = alist_get es k := by
  induction es with
  | nil => rfl
  | cons e rest ih =>
    by_cases hq : q e = true
    · rw [List.filter_cons_of_pos hq]
      by_cases hk : e.1 = k
      · simp [alist_get, List.find?_cons, hk]
      · unfold alist_get at ih ⊢
        rw [List.find?_cons_of_neg, List.find?_cons_of_neg]
        · exact ih
        · simpa using hk
        · simpa using hk
    · rw [List.filter_cons_of_neg (by simpa using hq)]
      have hk : ¬ e.1 = k := fun hk => hq (h e hk)
      unfold alist_get at ih ⊢
      rw [List.find?_cons_of_neg]
      · exact ih
      · simpa using hk

theorem optionMapList_isSome (f : α → Option β) (l : List α) :
    (optionMapList f l).isSome = l.all (fun a => (f a).isSome) := by
  induction l with
  | nil => rfl
  | cons a rest ih =>
    rw [optionMapList, List.all_cons]
    cases h : f a with
    | none => simp [h]
    | some b => simp [h, ← ih]

/-- Claim C1, evaluation of the code at the failing input: the Multiselect
Schema Mapper silently maps the two distinct blood-type choices A+ and A
to the single canonical column name blood_A; the map construction has no
error channel at all, although the _build_col_name docstring documents a
ValueError for exactly this situation. -/
theorem c1_collision_silent :
    construct_multiselect_map [(1, bloodTemplate)] =
      [((1, 7), [("A+", "blood_A"), ("A", "blood_A")])] := rfl

/-- Claim C5: the canonical multiselect column name is a pure function of
(short-name, choice) equal to the specification's description: shortname,
underscore, then the choice with spaces and hyphens turned into
underscores and every remaining character outside [0-9a-zA-Z_] removed.
Purity and batch-independence hold by construction, since build_col_name
takes only the pair as input. -/
theorem c5_build_col_name_matches_spec (col_name choice : String) :
    build_col_name col_name choice = buildColNameSpec col_name choice := by
  unfold build_col_name buildColNameSpec
  simp only [List.map_map]
  congr 3
  congr 1
  funext c
  by_cases h1 : c = ' '
  · subst h1; simp
  · by_cases h2 : c = '-'
    · subst h2; simp
    · simp [Function.comp, h1, h2]

theorem processSurveys_dedupAux (m : MSMap) (ss : List Survey) :
    ∀ seen, processSurveys m seen (dedupSurveysAux seen ss) =
      processSurveys m seen ss := by
  induction ss with
  | nil => intro _; rfl
  | cons s rest ih =>
    intro seen
    rw [dedupSurveysAux]
    by_cases h : s.template ∈ seen
    · rw [if_pos h, ih, processSurveys, if_pos h]
    · rw [if_neg h, processSurveys, if_neg h, processSurveys, if_neg h]
      cases hr : processResponse m s.template s.response with
      | none => rfl
      | some entries => rw [ih]

/-- Claim C6: the flattener's output on a sample equals its output on the
same sample with every later duplicate submission of an already-seen
template removed: only the first-encountered submission of each template
is reflected, later ones are dropped, and no error is produced (the
flattener has no error-entry output; failure and success agree on both
sides of the equality). -/
theorem c6_first_seen_wins (hsi : SiteInvariants) (m : MSMap)
    (md : SampleMeta) :
    to_pandas_series hsi m md =
      to_pandas_series hsi m
        { md with survey_answers := dedupSurveysAux [] md.survey_answers } := by
  unfold to_pandas_series
  rw [processSurveys_dedupAux]

theorem process_response_item_isSome (m : MSMap) (t : Nat)
    (item : Nat × String × Answer) :
    (process_response_item m t item).isSome = answer_ok m t item := by
  unfold process_response_item answer_ok
  cases lookupMS m (t, item.1) with
  | none => cases item.2.2 <;> rfl
  | some cm =>
    cases item.2.2 with
    | text s => rfl
    | multi sels =>
      rw [optionMapList_isSome]
      congr 1
      funext sel
      simp

theorem processResponse_isSome (m : MSMap) (t : Nat)
    (resp : List (Nat × String × Answer)) :
    (processResponse m t resp).isSome = resp.all (answer_ok m t) := by
  unfold processResponse
  rw [Option.isSome_map', optionMapList_isSome]
  congr 1
  funext item
  rw [process_response_item_isSome]

theorem processSurveys_isSome (m : MSMap) (ss : List Survey) :
    ∀ seen, (processSurveys m seen ss).isSome = surveys_ok m seen ss := by
  induction ss with
  | nil => intro _; rfl
  | cons s rest ih =>
    intro seen
    rw [processSurveys, surveys_ok]
    by_cases h : s.template ∈ seen
    · rw [if_pos h, if_pos h, ih]
    · rw [if_neg h, if_neg h]
      have hpr := processResponse_isSome m s.template s.response
      cases hr : processResponse m s.template s.response with
      | none =>
        rw [hr] at hpr
        simp [← hpr]
      | some entries =>
        rw [hr] at hpr
        simp [← hpr, ← ih]

/-- Claim C10 as amended: the flattener succeeds exactly when the human
site lookup succeeds and, in every first-encountered submission of each
template, every mapped question carries a list answer whose selections
all resolve in the choice map and every unmapped question carries a
free-text answer; when any of these fails the flattener errors instead
of producing a record. -/
theorem c10_flatten_total_iff (hsi : SiteInvariants) (m : MSMap)
    (md : SampleMeta) :
    (to_pandas_series hsi m md).isSome = flatten_ok hsi m md := by
  unfold to_pandas_series flatten_ok
  have hs := processSurveys_isSome m md.survey_answers []
  by_cases h : md.source_type = "human"
  · rw [if_pos h]
    cases hl : lookupInv hsi md.site with
    | none => simp [h, hl]
    | some inv =>
      cases hp : processSurveys m [] md.survey_answers with
      | none =>
        rw [hp] at hs
        simp [h, hl, ← hs]
      | some entries =>
        rw [hp] at hs
        simp [h, hl, ← hs]
  · rw [if_neg h]
    cases hp : processSurveys m [] md.survey_answers with
    | none =>
      rw [hp] at hs
      simp [h, ← hs]
    | some entries =>
      rw [hp] at hs
      simp [h, ← hs]

/-- Claim C10, counterexample to the stated precondition: this sample
satisfies the claim's precondition (its only answer belongs to a question
that is not in the multiselect map, and the sample is not human-typed),
yet flattening fails, because the free-text path calls strip on the list
answer; so the claimed precondition does not make the flattener total. -/
theorem c10_counterexample :
    c10Precond hsiSample [] mdMultiUnmapped = true ∧
      to_pandas_series hsiSample [] mdMultiUnmapped = none :=
  ⟨rfl, rfl⟩

theorem ignored_not_observed (md : SampleMeta) (t : Nat)
    (ht : t ∈ TEMPLATES_TO_IGNORE) : ¬ t ∈ observedTemplates md := by
  intro hmem
  unfold observedTemplates at hmem
  rw [mem_firstDedup] at hmem
  have h2 := List.of_mem_filter hmem
  rw [decide_eq_true_eq] at h2
  exact h2 ht

theorem foldlAdd_not_mem (aid sid : String) (t : Nat) :
    ∀ (ts : List Nat) (acc : List (Nat × String × String)),
      ¬ t ∈ ts → ¬ t ∈ acc.map Prod.fst →
      ¬ t ∈ ((ts.foldl (fun acc2 u =>
          if (acc2.find? (fun p => decide (p.1 = u))).isSome then acc2
          else acc2 ++ [(u, aid, sid)]) acc).map Prod.fst) := by
  intro ts
  induction ts with
  | nil => intro acc _ h; exact h
  | cons u rest ih =>
    intro acc hts hacc
    rw [List.foldl_cons]
    apply ih
    · exact fun hmem => hts (List.mem_cons_of_mem _ hmem)
    · by_cases hf : (acc.find? (fun p => decide (p.1 = u))).isSome = true
      · rw [if_pos hf]; exact hacc
      · rw [if_neg hf, List.map_append]
        intro hmem
        rcases List.mem_append.mp hmem with h1 | h2
        · exact hacc h1
        · have : t = u := by simpa using h2
          exact hts (this ▸ List.mem_cons_self u rest)

theorem addTemplates_not_mem (md : SampleMeta) (t : Nat)
    (ht : ¬ t ∈ observedTemplates md) (acc : List (Nat × String × String))
    (hacc : ¬ t ∈ acc.map Prod.fst) :
    ¬ t ∈ (addTemplates acc md).map Prod.fst :=
  foldlAdd_not_mem md.account_id md.source_id t (observedTemplates md) acc
    ht hacc

theorem collectTemplates_not_mem (mds : List SampleMeta) (t : Nat)
    (ht : t ∈ TEMPLATES_TO_IGNORE) :
    ¬ t ∈ (collectTemplates mds).map Prod.fst := by
  unfold collectTemplates
  have main : ∀ (l : List SampleMeta) (acc : List (Nat × String × String)),
      ¬ t ∈ acc.map Prod.fst →
      ¬ t ∈ (l.foldl addTemplates acc).map Prod.fst := by
    intro l
    induction l with
    | nil => intro acc h; exact h
    | cons md rest ih =>
      intro acc h
      rw [List.foldl_cons]
      exact ih _ (addTemplates_not_mem md t (ignored_not_observed md t ht) acc h)
  exact main mds [] (by simp)

theorem fetchTemplatesLoop_keys_sub
    (ft : Nat → String → String → Nat × Template) (t : Nat) :
    ∀ (triples : List (Nat × String × String)),
      (t ∈ (fetchTemplatesLoop ft triples).1.map Prod.fst ∨
       t ∈ (fetchTemplatesLoop ft triples).2.map Prod.fst) →
      t ∈ triples.map Prod.fst := by
  intro triples
  induction triples with
  | nil => intro h; simp [fetchTemplatesLoop] at h
  | cons tr rest ih =>
    intro h
    cases herr : (fetch_survey_template ft tr.1 tr.2.1 tr.2.2).2 with
    | some e =>
      simp only [fetchTemplatesLoop, herr, List.map_cons, List.mem_cons] at h
      rw [List.map_cons, List.mem_cons]
      rcases h with h1 | h2
      · exact Or.inr (ih (Or.inl h1))
      · rcases h2 with he | h2'
        · exact Or.inl he
        · exact Or.inr (ih (Or.inr h2'))
    | none =>
      simp only [fetchTemplatesLoop, herr, List.map_cons, List.mem_cons] at h
      rw [List.map_cons, List.mem_cons]
      rcases h with h1 | h2
      · rcases h1 with he | h1'
        · exact Or.inl he
        · exact Or.inr (ih (Or.inl h1'))
      · exact Or.inr (ih (Or.inr h2))

theorem construct_multiselect_map_keys (sts : List (Nat × Template))
    (t q : Nat) (cm : List (String × String))
    (h : ((t, q), cm) ∈ construct_multiselect_map sts) :
    t ∈ sts.map Prod.fst := by
  unfold construct_multiselect_map at h
  rw [List.mem_flatten] at h
  obtain ⟨inner, hinner, hmem⟩ := h
  rw [List.mem_map] at hinner
  obtain ⟨p, hp, rfl⟩ := hinner
  rw [List.mem_flatten] at hmem
  obtain ⟨inner2, hinner2, hmem2⟩ := hmem
  rw [List.mem_map] at hinner2
  obtain ⟨g, hg, rfl⟩ := hinner2
  rw [List.mem_map] at hmem2
  obtain ⟨fld, hfld, heq⟩ := hmem2
  have h1 : p.1 = t := congrArg (fun x => x.1.1) heq
  exact List.mem_map.mpr ⟨p, hp, h1⟩

/-- Claim C3 as amended: an ignored template is excluded from template
fetching, so it never enters the fetched surveys map, never produces a
template fetch error entry, and never contributes a multiselect map entry
(hence no multiselect column); however the flattener has no ignore
filter, so an ignored template's submission still contributes its
free-text answers to the flattened record, as the concrete sample whose
only submission references ignored template 10001 shows. -/
theorem c3_ignored_outside_fetch
    (ft : Nat → String → String → Nat × Template)
    (mds : List SampleMeta) (t : Nat) (ht : t ∈ TEMPLATES_TO_IGNORE) :
    (¬ t ∈ (fetchObservedSurveyTemplates ft mds).1.map Prod.fst) ∧
    (¬ t ∈ (fetchObservedSurveyTemplates ft mds).2.map Prod.fst) ∧
    (∀ q cm, ¬ ((t, q), cm) ∈
      construct_multiselect_map (fetchObservedSurveyTemplates ft mds).1) ∧
    ((to_pandas_series hsiSample [] mdIgnored).map Series.entries =
      some [("HOST_SUBJECT_ID", "H1"), ("COLLECTION_TIMESTAMP", "2020-01-01"),
            ("PETS", "dog")]) := by
  have hcoll := collectTemplates_not_mem mds t ht
  refine ⟨?_, ?_, ?_, rfl⟩
  · intro hmem
    exact hcoll (fetchTemplatesLoop_keys_sub ft t (collectTemplates mds)
      (Or.inl hmem))
  · intro hmem
    exact hcoll (fetchTemplatesLoop_keys_sub ft t (collectTemplates mds)
      (Or.inr hmem))
  · intro q cm hmem
    have hk := construct_multiselect_map_keys _ t q cm hmem
    exact hcoll (fetchTemplatesLoop_keys_sub ft t (collectTemplates mds)
      (Or.inl hk))

/-- Claim C3, counterexample to the claim as stated: this sample's only
submission references the ignored template 10001, yet the flattened
record contains the free-text column PETS contributed by that submission,
because _to_pandas_series never consults TEMPLATES_TO_IGNORE. -/
theorem c3_counterexample :
    to_pandas_series hsiSample [] mdIgnored =
      some ⟨"BC1", [("HOST_SUBJECT_ID", "H1"),
                    ("COLLECTION_TIMESTAMP", "2020-01-01"),
                    ("PETS", "dog")]⟩ := rfl

theorem c3_witness :
    (¬ (10001 : Nat) ∈
      (fetchObservedSurveyTemplates ftFail [mdIgnored]).1.map Prod.fst) ∧
    (¬ (10001 : Nat) ∈
      (fetchObservedSurveyTemplates ftFail [mdIgnored]).2.map Prod.fst) := by
  have h := c3_ignored_outside_fetch ftFail [mdIgnored] 10001 (by decide)
  exact ⟨h.1, h.2.1⟩

theorem mem_findDuplicates (bs : List String) (b : String) :
    b ∈ (findDuplicates bs).1 ↔ 1 < countOcc b bs := by
  unfold findDuplicates
  by_cases h : 0 < ((firstDedup bs).filter
      (fun x => decide (1 < countOcc x bs))).length
  · rw [if_pos h]
    constructor
    · intro hb
      have := List.of_mem_filter hb
      simpa using this
    · intro hb
      refine List.mem_filter.mpr ⟨?_, by simpa using hb⟩
      rw [mem_firstDedup]
      exact (countOcc_pos b bs).mp (Nat.lt_of_lt_of_le Nat.zero_lt_one
        (Nat.le_of_lt hb))
  · rw [if_neg h]
    constructor
    · intro hb
      have := List.of_mem_filter hb
      simpa using this
    · intro hb
      refine List.mem_filter.mpr ⟨?_, by simpa using hb⟩
      rw [mem_firstDedup]
      exact (countOcc_pos b bs).mp (Nat.lt_of_lt_of_le Nat.zero_lt_one
        (Nat.le_of_lt hb))

/-- Claim C7: the duplicate report is absent exactly when no barcode has
multiplicity above one; when some barcode repeats, the detector produces
the single error entry carrying the duplicate list, whose members are
exactly the barcodes of multiplicity above one; and the fetch loop always
operates on the de-duplicated identifier set, which contains exactly the
requested identifiers, so the check removes nothing. -/
theorem c7_duplicate_detector (bs : List String) :
    ((findDuplicates bs).2 = none ↔ ∀ b, countOcc b bs ≤ 1) ∧
    ((∃ b, 1 < countOcc b bs) →
      (findDuplicates bs).2 = some (ErrorEntry.dups (findDuplicates bs).1
        "Duplicated barcodes in input")) ∧
    (∀ b, b ∈ (findDuplicates bs).1 ↔ 1 < countOcc b bs) ∧
    (∀ b, b ∈ uniqueBarcodes bs ↔ b ∈ bs) := by
  refine ⟨?_, ?_, mem_findDuplicates bs, fun b => mem_firstDedup bs b⟩
  · constructor
    · intro hnone b
      by_contra hgt
      push_neg at hgt
      have hbmem : b ∈ (findDuplicates bs).1 := (mem_findDuplicates bs b).mpr hgt
      unfold findDuplicates at hnone hbmem
      by_cases h : 0 < ((firstDedup bs).filter
          (fun x => decide (1 < countOcc x bs))).length
      · rw [if_pos h] at hnone
        exact Option.noConfusion hnone
      · rw [if_neg h] at hbmem
        have : ((firstDedup bs).filter
            (fun x => decide (1 < countOcc x bs))).length = 0 :=
          Nat.eq_zero_of_not_pos h
        rw [List.length_eq_zero] at this
        rw [this] at hbmem
        exact List.not_mem_nil b hbmem
    · intro hle
      unfold findDuplicates
      have hempty : ((firstDedup bs).filter
          (fun x => decide (1 < countOcc x bs))) = [] := by
        rw [List.filter_eq_nil_iff]
        intro a _
        simpa using Nat.not_lt.mpr (hle a)
      rw [if_neg (by rw [hempty]; exact Nat.lt_irrefl 0)]
  · intro hex
    obtain ⟨b, hb⟩ := hex
    have hbmem : b ∈ (findDuplicates bs).1 := (mem_findDuplicates bs b).mpr hb
    unfold findDuplicates at hbmem ⊢
    by_cases h : 0 < ((firstDedup bs).filter
        (fun x => decide (1 < countOcc x bs))).length
    · rw [if_pos h]
    · rw [if_neg h] at hbmem
      have : ((firstDedup bs).filter
          (fun x => decide (1 < countOcc x bs))).length = 0 :=
        Nat.eq_zero_of_not_pos h
      rw [List.length_eq_zero] at this
      rw [this] at hbmem
      exact absurd hbmem (List.not_mem_nil b)

theorem c7_witness :
    ((findDuplicates ["a", "b", "a"]).2 =
      some (ErrorEntry.dups (findDuplicates ["a", "b", "a"]).1
        "Duplicated barcodes in input")) ∧
    ("a" ∈ (findDuplicates ["a", "b", "a"]).1) := by
  have h := c7_duplicate_detector ["a", "b", "a"]
  exact ⟨h.2.1 ⟨"a", by decide⟩, (h.2.2.1 "a").mpr (by decide)⟩

theorem privateCol_of_mem_remove (df : DataFrame) (c : String)
    (h : lowerStr c ∈ removeList df) : privateCol c = true := by
  unfold privateCol
  rcases List.mem_append.mp h with hpm | hebi
  · obtain ⟨x, hx, hxe⟩ := List.mem_map.mp hpm
    have hxs := List.of_mem_filter hx
    rw [hxe] at hxs
    rw [hxs]
    rfl
  · simp [hebi]

theorem mem_remove_of_privateCol (df : DataFrame) (c : String)
    (hc : c ∈ df.columns) (hp : privateCol c = true) :
    lowerStr c ∈ removeList df := by
  unfold removeList
  rw [List.mem_append]
  unfold privateCol at hp
  rcases Bool.or_eq_true_iff.mp hp with hpm | hebi
  · exact Or.inl (List.mem_map.mpr ⟨c, List.mem_filter.mpr ⟨hc, hpm⟩, rfl⟩)
  · exact Or.inr (of_decide_eq_true hebi)

theorem mem_toDropList (df : DataFrame) (c : String) :
    c ∈ toDropList df ↔ (c ∈ df.columns ∧ privateCol c = true) := by
  unfold toDropList
  rw [List.mem_filter]
  constructor
  · rintro ⟨hcol, hdec⟩
    exact ⟨hcol, privateCol_of_mem_remove df c (of_decide_eq_true hdec)⟩
  · rintro ⟨hcol, hp⟩
    exact ⟨hcol, decide_eq_true (mem_remove_of_privateCol df c hcol hp)⟩

/-- Claim C8: a column of the table whose lower-cased name starts with
pm_ or matches the EBI denylist case-insensitively is unconditionally
absent after drop_private_columns; every other column survives with every
row's cell value unchanged. -/
theorem c8_drop_private (df : DataFrame) (c : String) (hc : c ∈ df.columns) :
    (privateCol c = true → ¬ c ∈ (drop_private_columns df).columns) ∧
    (privateCol c = false →
      (c ∈ (drop_private_columns df).columns ∧
       ∀ i : Nat,
         ((drop_private_columns df).rows.get? i).map (fun r => rawCell r c) =
           (df.rows.get? i).map (fun r => rawCell r c))) := by
  constructor
  · intro hp hmem
    have hdrop : c ∈ toDropList df := (mem_toDropList df c).mpr ⟨hc, hp⟩
    have := List.of_mem_filter hmem
    exact (of_decide_eq_true this) hdrop
  · intro hp
    have hnd : ¬ c ∈ toDropList df := by
      intro hmem
      have := ((mem_toDropList df c).mp hmem).2
      rw [hp] at this
      exact Bool.false_ne_true this
    constructor
    · exact List.mem_filter.mpr ⟨hc, decide_eq_true hnd⟩
    · intro i
      show ((df.rows.map (fun r =>
          (⟨r.name, r.entries.filter (fun e => decide (¬ e.1 ∈ toDropList df))⟩
            : Series))).get? i).map (fun r => rawCell r c) =
        (df.rows.get? i).map (fun r => rawCell r c)
      rw [List.get?_map]
      cases df.rows.get? i with
      | none => rfl
      | some r =>
        show some (rawCell _ c) = some (rawCell r c)
        congr 1
        unfold rawCell
        exact alist_get_filter_keep _ r.entries c
          (fun e he => decide_eq_true (fun hmem => hnd (he ▸ hmem)))

theorem c8_witness :
    (¬ "ZIP_CODE" ∈ (drop_private_columns dfEx8).columns) ∧
    ((drop_private_columns dfEx8).rows.get? 0).map
        (fun r => rawCell r "AGE") =
      (dfEx8.rows.get? 0).map (fun r => rawCell r "AGE") := by
  have h1 := c8_drop_private dfEx8 "ZIP_CODE" (by decide)
  have h2 := c8_drop_private dfEx8 "AGE" (by decide)
  exact ⟨h1.1 (by decide), (h2.2 (by decide)).2 0⟩

theorem fetchLoop_all_fail (f : String → Nat × SampleMeta) :
    ∀ (l : List String), (∀ b ∈ l, ¬ (f b).1 = 200) →
      fetchLoop f l = ([], l.map (fun b =>
        ErrorEntry.sampleFetch b (toString (f b).1 ++ " from api"))) := by
  intro l
  induction l with
  | nil => intro _; rfl
  | cons b rest ih =>
    intro h
    have hrest := ih (fun x hx => h x (List.mem_cons_of_mem _ hx))
    simp only [fetchLoop, hrest, List.map_cons]
    rw [if_pos (h b (List.mem_cons_self b rest))]

theorem noMetadata_notin_dup (bs : List String) (s : String) :
    ¬ ErrorEntry.noMetadata s ∈ (findDuplicates bs).2.toList := by
  unfold findDuplicates
  by_cases h : 0 < ((firstDedup bs).filter
      (fun b => decide (1 < countOcc b bs))).length
  · rw [if_pos h]
    simp
  · rw [if_neg h]
    simp

theorem noMetadata_notin_fetchErrs (f : String → Nat × SampleMeta)
    (s : String) : ∀ (l : List String),
    ¬ ErrorEntry.noMetadata s ∈ (fetchLoop f l).2 := by
  intro l
  induction l with
  | nil => simp [fetchLoop]
  | cons b rest ih =>
    simp only [fetchLoop]
    by_cases h : ¬ (f b).1 = 200
    · rw [if_pos h]
      intro hmem
      rcases List.mem_cons.mp hmem with he | hm
      · exact ErrorEntry.noConfusion he
      · exact ih hm
    · rw [if_neg h]
      exact ih

/-- Claim C9: when every per-sample fetch fails, retrieve_metadata
returns the empty frame together with the duplicate report, one fetch
error entry per attempted (de-duplicated) barcode, and the terminal
no-metadata entry; moreover, for any outcome of the pipeline, the
terminal entry is in the report exactly when zero samples were
fetched. -/
theorem c9_all_fetches_fail (f : String → Nat × SampleMeta)
    (ft : Nat → String → String → Nat × Template)
    (hsi : SiteInvariants) (bs : List String) :
    ((∀ b ∈ uniqueBarcodes bs, ¬ (f b).1 = 200) →
      retrieve_metadata f ft hsi bs =
        some (⟨[], []⟩,
          (findDuplicates bs).2.toList ++
          (uniqueBarcodes bs).map (fun b =>
            ErrorEntry.sampleFetch b (toString (f b).1 ++ " from api")) ++
          [ErrorEntry.noMetadata "No metadata was obtained"])) ∧
    (∀ df report, retrieve_metadata f ft hsi bs = some (df, report) →
      (ErrorEntry.noMetadata "No metadata was obtained" ∈ report ↔
        (fetchLoop f (uniqueBarcodes bs)).1 = [])) := by
  constructor
  · intro hfail
    have hl := fetchLoop_all_fail f (uniqueBarcodes bs) hfail
    simp only [retrieve_metadata, hl]
    rw [if_pos trivial]
  · intro df report heq
    by_cases hf : (fetchLoop f (uniqueBarcodes bs)).1 = []
    · simp only [retrieve_metadata] at heq
      rw [if_pos hf] at heq
      have h2 := Option.some.inj heq
      have hrep : report = (findDuplicates bs).2.toList ++
          (fetchLoop f (uniqueBarcodes bs)).2 ++
          [ErrorEntry.noMetadata "No metadata was obtained"] :=
        (congrArg Prod.snd h2).symm
      subst hrep
      simp [hf, List.mem_append]
    · simp only [retrieve_metadata] at heq
      rw [if_neg hf] at heq
      by_cases hst : (fetchObservedSurveyTemplates ft
          (fetchLoop f (uniqueBarcodes bs)).1).2 = []
      · rw [if_pos hst] at heq
        rw [Option.map_eq_some'] at heq
        obtain ⟨d, _, hpair⟩ := heq
        have hrep : report = (findDuplicates bs).2.toList ++
            (fetchLoop f (uniqueBarcodes bs)).2 :=
          (congrArg Prod.snd hpair).symm
        subst hrep
        constructor
        · intro hmem
          rcases List.mem_append.mp hmem with h1 | h2
          · exact absurd h1 (noMetadata_notin_dup bs _)
          · exact absurd h2 (noMetadata_notin_fetchErrs f _ _)
        · intro h
          exact absurd h hf
      · rw [if_neg hst] at heq
        have h2 := Option.some.inj heq
        have hrep : report = (findDuplicates bs).2.toList ++
            (fetchLoop f (uniqueBarcodes bs)).2 ++
            [ErrorEntry.templateFetch (fetchObservedSurveyTemplates ft
              (fetchLoop f (uniqueBarcodes bs)).1).2] :=
          (congrArg Prod.snd h2).symm
        subst hrep
        constructor
        · intro hmem
          rcases List.mem_append.mp hmem with h1 | h2
          · rcases List.mem_append.mp h1 with h3 | h4
            · exact absurd h3 (noMetadata_notin_dup bs _)
            · exact absurd h4 (noMetadata_notin_fetchErrs f _ _)
          · rcases List.mem_cons.mp h2 with he | hm
            · exact ErrorEntry.noConfusion he
            · exact absurd hm (List.not_mem_nil _)
        · intro h
          exact absurd h hf

theorem c9_witness :
    retrieve_metadata fFail ftFail hsiSample ["b1", "b1", "b2"] =
      some (⟨[], []⟩,
        [ErrorEntry.dups ["b1"] "Duplicated barcodes in input",
         ErrorEntry.sampleFetch "b1" "404 from api",
         ErrorEntry.sampleFetch "b2" "404 from api",
         ErrorEntry.noMetadata "No metadata was obtained"]) := by
  have h := (c9_all_fetches_fail fFail ftFail hsiSample
    ["b1", "b1", "b2"]).1 (by decide)
  exact h

theorem find?_key_isSome [DecidableEq κ] (acc : List (κ × ν)) (k : κ) :
    (acc.find? (fun p => decide (p.1 = k))).isSome = true ↔
      k ∈ acc.map Prod.fst := by
  induction acc with
  | nil => simp
  | cons e rest ih =>
    by_cases h : e.1 = k
    · simp [List.find?_cons, h]
    · rw [List.map_cons, List.find?_cons_of_neg _ (by simpa using h)]
      constructor
      · intro hf
        exact List.mem_cons_of_mem _ (ih.mp hf)
      · intro hk
        rcases List.mem_cons.mp hk with he | hk'
        · exact absurd he.symm h
        · exact ih.mpr hk'

theorem foldlAdd_keys_nodup (aid sid : String) :
    ∀ (ts : List Nat) (acc : List (Nat × String × String)),
      (acc.map Prod.fst).Nodup →
      ((ts.foldl (fun acc2 u =>
          if (acc2.find? (fun p => decide (p.1 = u))).isSome then acc2
          else acc2 ++ [(u, aid, sid)]) acc).map Prod.fst).Nodup := by
  intro ts
  induction ts with
  | nil => intro acc h; exact h
  | cons u rest ih =>
    intro acc h
    rw [List.foldl_cons]
    apply ih
    by_cases hf : (acc.find? (fun p => decide (p.1 = u))).isSome = true
    · rw [if_pos hf]; exact h
    · rw [if_neg hf, List.map_append]
      have hu : ¬ u ∈ acc.map Prod.fst :=
        fun hm => hf ((find?_key_isSome acc u).mpr hm)
      simp [List.nodup_append, h, hu]

theorem collectTemplates_keys_nodup (mds : List SampleMeta) :
    ((collectTemplates mds).map Prod.fst).Nodup := by
  unfold collectTemplates
  have main : ∀ (l : List SampleMeta) (acc : List (Nat × String × String)),
      (acc.map Prod.fst).Nodup → ((l.foldl addTemplates acc).map Prod.fst).Nodup := by
    intro l
    induction l with
    | nil => intro acc h; exact h
    | cons md rest ih =>
      intro acc h
      rw [List.foldl_cons]
      exact ih _ (foldlAdd_keys_nodup md.account_id md.source_id
        (observedTemplates md) acc h)
  exact main mds [] (by simp)

theorem fetchTemplatesLoop_disjoint
    (ft : Nat → String → String → Nat × Template) :
    ∀ (triples : List (Nat × String × String)),
      (triples.map Prod.fst).Nodup → ∀ t,
      t ∈ (fetchTemplatesLoop ft triples).2.map Prod.fst →
      ¬ t ∈ (fetchTemplatesLoop ft triples).1.map Prod.fst := by
  intro triples
  induction triples with
  | nil => intro _ t ht; simp [fetchTemplatesLoop] at ht
  | cons tr rest ih =>
    intro hnd t ht hs
    rw [List.map_cons, List.nodup_cons] at hnd
    obtain ⟨hhead, htail⟩ := hnd
    cases herr : (fetch_survey_template ft tr.1 tr.2.1 tr.2.2).2 with
    | some e =>
      simp only [fetchTemplatesLoop, herr, List.map_cons, List.mem_cons] at ht hs
      rcases ht with he | ht'
      · subst he
        exact hhead (fetchTemplatesLoop_keys_sub ft tr.1 rest (Or.inl hs))
      · exact ih htail t ht' hs
    | none =>
      simp only [fetchTemplatesLoop, herr, List.map_cons, List.mem_cons] at ht hs
      rcases hs with he | hs'
      · subst he
        exact hhead (fetchTemplatesLoop_keys_sub ft tr.1 rest (Or.inr ht))
      · exact ih htail t ht hs'

/-- Claim C2 as amended: when at least one sample was fetched and some
observed template's fetch fails, the failing template is excluded from
the fetched surveys map and an error entry keyed by template id is
appended — but retrieve_metadata then skips table construction entirely
and returns the empty frame, so even successfully fetched samples yield
no rows; a template fetch failure is not per-unit for the table. -/
theorem c2_template_failure_aborts (f : String → Nat × SampleMeta)
    (ft : Nat → String → String → Nat × Template)
    (hsi : SiteInvariants) (bs : List String)
    (h1 : ¬ (fetchLoop f (uniqueBarcodes bs)).1 = [])
    (h2 : ¬ (fetchObservedSurveyTemplates ft
      (fetchLoop f (uniqueBarcodes bs)).1).2 = []) :
    (retrieve_metadata f ft hsi bs =
      some (⟨[], []⟩,
        (findDuplicates bs).2.toList ++ (fetchLoop f (uniqueBarcodes bs)).2 ++
        [ErrorEntry.templateFetch (fetchObservedSurveyTemplates ft
          (fetchLoop f (uniqueBarcodes bs)).1).2])) ∧
    (∀ tid, tid ∈ ((fetchObservedSurveyTemplates ft
        (fetchLoop f (uniqueBarcodes bs)).1).2.map Prod.fst) →
      ¬ tid ∈ ((fetchObservedSurveyTemplates ft
        (fetchLoop f (uniqueBarcodes bs)).1).1.map Prod.fst)) := by
  constructor
  · simp only [retrieve_metadata]
    rw [if_neg h1, if_neg h2]
  · intro tid htid
    exact fetchTemplatesLoop_disjoint ft
      (collectTemplates (fetchLoop f (uniqueBarcodes bs)).1)
      (collectTemplates_keys_nodup _) tid htid

/-- Claim C2, counterexample to the claim as stated: the single barcode
BC1 is fetched successfully, its only observed template's fetch fails
with a 500, and the resulting table is empty — the successfully fetched
sample does not produce a row, contradicting the claim that table
construction continues without the failed template's columns. -/
theorem c2_counterexample :
    retrieve_metadata fOk ftFail hsiSample ["BC1"] =
      some (⟨[], []⟩,
        [ErrorEntry.templateFetch
          [(1, ⟨"a", "s", 1, "500 from api"⟩)]]) := rfl

theorem c2_witness :
    (retrieve_metadata fMixed ftFail hsiSample ["BC1", "BC2"] =
      some (⟨[], []⟩,
        [ErrorEntry.sampleFetch "BC2" "404 from api",
         ErrorEntry.templateFetch [(1, ⟨"a", "s", 1, "500 from api"⟩)]])) ∧
    ¬ (1 : Nat) ∈ ((fetchObservedSurveyTemplates ftFail
      (fetchLoop fMixed (uniqueBarcodes ["BC1", "BC2"])).1).1.map Prod.fst) := by
  have h := c2_template_failure_aborts fMixed ftFail hsiSample ["BC1", "BC2"]
    (by decide) (by decide)
  exact ⟨h.1, h.2 1 (by decide)⟩

theorem rawCell_appendConst (r : Series) (cols : List String) (v c : String) :
    rawCell ⟨r.name, r.entries ++ cols.map (fun x => (x, v))⟩ c =
      match rawCell r c with
      | some w => some w
      | none => if c ∈ cols then some v else none := by
  unfold rawCell
  show alist_get (r.entries ++ cols.map (fun x => (x, v))) c = _
  rw [alist_get_append, alist_get_mapConst]
  cases alist_get r.entries c <;> rfl

theorem rawCell_withDefaults (r : Series) (cols : List String) (v c : String) :
    rawCell (seriesWithDefaults r cols v) c =
      match rawCell r c with
      | some w => some w
      | none => if c ∈ cols then some v else none := by
  unfold seriesWithDefaults
  rw [rawCell_appendConst]
  cases h : rawCell r c with
  | some w => rfl
  | none =>
    by_cases hc : c ∈ cols
    · rw [if_pos (List.mem_filter.mpr ⟨hc, by simp [h]⟩), if_pos hc]
    · rw [if_neg (fun hm => hc (List.mem_filter.mp hm).1), if_neg hc]

theorem rawCell_replaceVals (r : Series) (c : String) :
    rawCell ⟨r.name, r.entries.map (fun e =>
      (e.1, if e.2 = "" then "Missing: not provided" else e.2))⟩ c =
      (rawCell r c).map
        (fun w => if w = "" then "Missing: not provided" else w) := by
  unfold rawCell
  exact alist_get_mapValues
    (fun w => if w = "" then "Missing: not provided" else w) r.entries c

/-- Claim C4: the fill passes of table assembly produce a table with no
null cell, characterized cell by cell: a null cell of a multiselect
column becomes the string false (never the missing sentinel), any other
null cell becomes the missing sentinel, an empty-string cell becomes the
missing sentinel, and every other cell keeps its value — with the
multiselect defaulting occurring before the generic missing fill. -/
theorem c4_fill_characterization (ms : List String) (df : DataFrame)
    (i : Nat) (c : String)
    (hc : c ∈ (assembleFills ms df).columns) :
    ((assembleFills ms df).rows.get? i).map (fun r => rawCell r c) =
      (df.rows.get? i).map (fun r =>
        some (match rawCell r c with
              | none => if c ∈ ms then "false" else "Missing: not provided"
              | some w => if w = "" then "Missing: not provided" else w)) := by
  have hcols : (assembleFills ms df).columns =
      df.columns ++ (firstDedup ms).filter (fun x => ¬ x ∈ df.columns) := rfl
  rw [hcols] at hc
  have hrows : (assembleFills ms df).rows =
      (((df.rows.map (fun r => seriesWithDefaults r
          ((firstDedup ms).filter (fun x => x ∈ df.columns)) "false")).map
        (fun r => (⟨r.name, r.entries ++
          ((firstDedup ms).filter (fun x => ¬ x ∈ df.columns)).map
            (fun x => (x, "false"))⟩ : Series))).map
        (fun r => seriesWithDefaults r
          (df.columns ++ (firstDedup ms).filter (fun x => ¬ x ∈ df.columns))
          "Missing: not provided")).map
        (fun r => ⟨r.name, r.entries.map (fun e =>
          (e.1, if e.2 = "" then "Missing: not provided" else e.2))⟩) := rfl
  rw [hrows, List.get?_map, List.get?_map, List.get?_map, List.get?_map]
  cases hrow : df.rows.get? i with
  | none => rfl
  | some r =>
    simp only [Option.map_some']
    congr 1
    rw [rawCell_replaceVals, rawCell_withDefaults, rawCell_appendConst,
      rawCell_withDefaults]
    cases hcell : rawCell r c with
    | some w => simp
    | none =>
      have hne : ¬ ("false" : String) = "" := by decide
      have hne2 : ¬ ("Missing: not provided" : String) = "" := by decide
      by_cases hms : c ∈ ms
      · have hfd : c ∈ firstDedup ms := (mem_firstDedup ms c).mpr hms
        by_cases hdc : c ∈ df.columns
        · simp [hfd, hdc, hms, hne]
        · simp [hfd, hdc, hms, hne]
      · have hfd : ¬ c ∈ firstDedup ms :=
          fun hm => hms ((mem_firstDedup ms c).mp hm)
        have hdc : c ∈ df.columns := by
          rcases List.mem_append.mp hc with h | h
          · exact h
          · exact absurd ((mem_firstDedup ms c).mp (List.mem_filter.mp h).1) hms
        simp [hfd, hdc, hms, hne2]

theorem c4_witness :
    ((assembleFills ["alcohol_beer"] dfW).rows.get? 0).map
        (fun r => rawCell r "alcohol_beer") = some (some "false") ∧
    ((assembleFills ["alcohol_beer"] dfW).rows.get? 0).map
        (fun r => rawCell r "Q1") =
      some (some "Missing: not provided") := by
  have h1 := c4_fill_characterization ["alcohol_beer"] dfW 0 "alcohol_beer"
    (by decide)
  have h2 := c4_fill_characterization ["alcohol_beer"] dfW 0 "Q1" (by decide)
  rw [h1, h2]
  exact ⟨rfl, rfl⟩

end Microsetta
